import Mathlib

/-!
A shallow embedding, in Lean 4, of the core services of the
`ylstack-on-edge` repository:

* `WalletManager` (src/packages/core/services/wallet-manager.ts)
* `OrderStateMachine` (src/packages/core/services/order-state-machine.ts)
* `PricingEngine` (role-based pricing engine source file)
* `SchemaValidator` (src/packages/core/services/schema-validator.ts)

Conventions of the embedding:

* JavaScript numbers holding currency amounts are modelled as `Int`
  (the repository documents all amounts as integer minor currency
  units); `Math.floor(a / b)` on integer operands is `Int.fdiv a b`.
* Functions that `throw` are modelled as `Except`-valued functions; a
  returned `Except.error` corresponds to a thrown exception, in which
  case no transaction object is produced.
* `new Date().toISOString()` is modelled by an explicit `now : String`
  parameter threaded through the operations.
* Optional (possibly `undefined`) record fields are `Option` fields.
* JavaScript truthiness tests on strings (`input.currency || 'USD'`)
  are modelled explicitly: `none` and the empty string are falsy.
* The opaque `metadata` JSON payload is modelled as `Option String`.
-/

namespace Ylstack

/-! ## Wallet manager: data model -/

inductive TransactionType where
  | credit | debit | lock | unlock | refund
deriving DecidableEq, Repr

inductive TransactionStatus where
  | pending | completed | failed | reversed
deriving DecidableEq, Repr

/-- Ledger entry, from `shared/schema.ts` (`transactions` table) restricted
to the fields the wallet manager reads or writes.  Fields the manager
leaves unset (`id`, `createdAt`) are optional and default to `none`. -/
structure Transaction where
  id : Option String := none
  tenantId : String
  walletId : String
  type : TransactionType
  amount : Int
  currency : String
  status : TransactionStatus
  referenceType : Option String := none
  referenceId : Option String := none
  parentTransactionId : Option String := none
  description : Option String := none
  metadata : Option String := none
  createdBy : Option String := none
  createdAt : Option String := none
  completedAt : Option String := none
deriving DecidableEq, Repr

structure TransactionCreateInput where
  tenantId : String
  walletId : String
  type : TransactionType
  amount : Int
  currency : Option String := none
  referenceType : Option String := none
  referenceId : Option String := none
  description : Option String := none
  metadata : Option String := none
  createdBy : String
deriving DecidableEq, Repr

structure WalletBalance where
  available : Int
  locked : Int
  total : Int
  currency : String
deriving DecidableEq, Repr

structure WalletError where
  message : String
  code : String
deriving DecidableEq, Repr

/-- JavaScript string truthiness applied to an optional string with a
default: `opt || dflt`. -/
def strOrDefault (opt : Option String) (dflt : String) : String :=
  match opt with
  | none => dflt
  | some s => if s = "" then dflt else s

namespace WalletManager

/-- Loop body of `WalletManager.calculateBalance`: skip entries whose
status is not `completed` (the `continue`), then dispatch on the entry
type, updating the `(available, locked)` accumulator. -/
def balanceStep (acc : Int × Int) (tx : Transaction) : Int × Int :=
  if tx.status ≠ TransactionStatus.completed then acc
  else
    match tx.type with
    | .credit => (acc.1 + tx.amount, acc.2)
    | .debit => (acc.1 - tx.amount, acc.2)
    | .lock => (acc.1 - tx.amount, acc.2 + tx.amount)
    | .unlock => (acc.1 + tx.amount, acc.2 - tx.amount)
    | .refund => (acc.1 + tx.amount, acc.2)

/-- `WalletManager.calculateBalance`: fold the ledger with `balanceStep`
starting from zero balances. -/
def calculateBalance (transactions : List Transaction) : WalletBalance :=
  let r := transactions.foldl balanceStep (0, 0)
  { available := r.1
    locked := r.2
    total := r.1 + r.2
    currency :=
      match transactions.head? with
      | some tx => if tx.currency = "" then "USD" else tx.currency
      | none => "USD" }

/-- `WalletManager.credit` -/
def credit (input : TransactionCreateInput) (now : String) :
    Except WalletError Transaction :=
  if input.amount ≤ 0 then
    .error { message := "Credit amount must be positive", code := "INVALID_AMOUNT" }
  else
    .ok
      { tenantId := input.tenantId
        walletId := input.walletId
        type := .credit
        amount := input.amount
        currency := strOrDefault input.currency "USD"
        status := .completed
        referenceType := input.referenceType
        referenceId := input.referenceId
        description := some (strOrDefault input.description "Wallet credit")
        metadata := input.metadata
        createdBy := some input.createdBy
        completedAt := some now }

/-- `WalletManager.debit` -/
def debit (input : TransactionCreateInput) (currentBalance : WalletBalance)
    (now : String) : Except WalletError Transaction :=
  if input.amount ≤ 0 then
    .error { message := "Debit amount must be positive", code := "INVALID_AMOUNT" }
  else if currentBalance.available < input.amount then
    .error { message := "Insufficient balance", code := "INSUFFICIENT_BALANCE" }
  else
    .ok
      { tenantId := input.tenantId
        walletId := input.walletId
        type := .debit
        amount := input.amount
        currency := strOrDefault input.currency "USD"
        status := .completed
        referenceType := input.referenceType
        referenceId := input.referenceId
        description := some (strOrDefault input.description "Wallet debit")
        metadata := input.metadata
        createdBy := some input.createdBy
        completedAt := some now }

/-- `WalletManager.lock` -/
def lock (input : TransactionCreateInput) (currentBalance : WalletBalance)
    (now : String) : Except WalletError Transaction :=
  if input.amount ≤ 0 then
    .error { message := "Lock amount must be positive", code := "INVALID_AMOUNT" }
  else if currentBalance.available < input.amount then
    .error { message := "Insufficient balance to lock", code := "INSUFFICIENT_BALANCE" }
  else
    .ok
      { tenantId := input.tenantId
        walletId := input.walletId
        type := .lock
        amount := input.amount
        currency := strOrDefault input.currency "USD"
        status := .completed
        referenceType := input.referenceType
        referenceId := input.referenceId
        description := some (strOrDefault input.description "Funds locked")
        metadata := input.metadata
        createdBy := some input.createdBy
        completedAt := some now }

/-- `WalletManager.unlock` -/
def unlock (input : TransactionCreateInput) (lockTransactionId : String)
    (currentBalance : WalletBalance) (now : String) :
    Except WalletError Transaction :=
  if input.amount ≤ 0 then
    .error { message := "Unlock amount must be positive", code := "INVALID_AMOUNT" }
  else if currentBalance.locked < input.amount then
    .error { message := "Insufficient locked balance", code := "INSUFFICIENT_LOCKED_BALANCE" }
  else
    .ok
      { tenantId := input.tenantId
        walletId := input.walletId
        type := .unlock
        amount := input.amount
        currency := strOrDefault input.currency "USD"
        status := .completed
        referenceType := input.referenceType
        referenceId := input.referenceId
        parentTransactionId := some lockTransactionId
        description := some (strOrDefault input.description "Funds unlocked")
        metadata := input.metadata
        createdBy := some input.createdBy
        completedAt := some now }

/-- `WalletManager.refund` -/
def refund (input : TransactionCreateInput) (originalTransactionId : String)
    (now : String) : Except WalletError Transaction :=
  if input.amount ≤ 0 then
    .error { message := "Refund amount must be positive", code := "INVALID_AMOUNT" }
  else
    .ok
      { tenantId := input.tenantId
        walletId := input.walletId
        type := .refund
        amount := input.amount
        currency := strOrDefault input.currency "USD"
        status := .completed
        referenceType := input.referenceType
        referenceId := input.referenceId
        parentTransactionId := some originalTransactionId
        description := some (strOrDefault input.description "Refund")
        metadata := input.metadata
        createdBy := some input.createdBy
        completedAt := some now }

/-- `WalletManager.processOrderPayment` (lock funds) -/
def processOrderPayment (walletId tenantId orderId : String) (amount : Int)
    (userId : String) (currentBalance : WalletBalance) (now : String) :
    Except WalletError Transaction :=
  lock
    { tenantId := tenantId
      walletId := walletId
      type := .lock
      amount := amount
      referenceType := some "order"
      referenceId := some orderId
      description := some ("Payment for order " ++ orderId)
      createdBy := userId }
    currentBalance now

/-- `WalletManager.completeOrderPayment` (unlock, then debit against the
balance with `available` bumped by the unlocked amount) -/
def completeOrderPayment (walletId tenantId orderId : String) (amount : Int)
    (lockTransactionId userId : String) (currentBalance : WalletBalance)
    (now : String) : Except WalletError (Transaction × Transaction) := do
  let u ← unlock
    { tenantId := tenantId
      walletId := walletId
      type := .unlock
      amount := amount
      referenceType := some "order"
      referenceId := some orderId
      description := some ("Unlock for order " ++ orderId)
      createdBy := userId }
    lockTransactionId currentBalance now
  let d ← debit
    { tenantId := tenantId
      walletId := walletId
      type := .debit
      amount := amount
      referenceType := some "order"
      referenceId := some orderId
      description := some ("Payment for order " ++ orderId)
      createdBy := userId }
    { currentBalance with available := currentBalance.available + amount } now
  return (u, d)

/-- `WalletManager.cancelOrderPayment` (unlock funds) -/
def cancelOrderPayment (walletId tenantId orderId : String) (amount : Int)
    (lockTransactionId userId : String) (currentBalance : WalletBalance)
    (now : String) : Except WalletError Transaction :=
  unlock
    { tenantId := tenantId
      walletId := walletId
      type := .unlock
      amount := amount
      referenceType := some "order"
      referenceId := some orderId
      description := some ("Cancelled order " ++ orderId)
      createdBy := userId }
    lockTransactionId currentBalance now

/-- `WalletManager.refundOrder` (refund funds) -/
def refundOrder (walletId tenantId orderId : String) (amount : Int)
    (originalTransactionId userId : String) (now : String) :
    Except WalletError Transaction :=
  refund
    { tenantId := tenantId
      walletId := walletId
      type := .refund
      amount := amount
      referenceType := some "order"
      referenceId := some orderId
      description := some ("Refund for order " ++ orderId)
      createdBy := userId }
    originalTransactionId now

end WalletManager

/-- Sum of the amounts of the `completed` transactions of one type in a
ledger (the specification's Σ over one transaction type). -/
def sumCompleted (txs : List Transaction) (ty : TransactionType) : Int :=
  ((txs.filter (fun tx =>
      tx.status = TransactionStatus.completed ∧ tx.type = ty)).map
    (fun tx => tx.amount)).sum

/-! ## Order state machine -/

inductive OrderStatus where
  | pending | payment_confirmed | approved | processing
  | delivered | failed | refunded | cancelled
deriving DecidableEq, Repr

/-- Printed name of a status, used in rejection reasons.  (The source
interpolates the status string into the message; the surrounding quote
characters of the original message are not reproduced.) -/
def statusName : OrderStatus → String
  | .pending => "pending"
  | .payment_confirmed => "payment_confirmed"
  | .approved => "approved"
  | .processing => "processing"
  | .delivered => "delivered"
  | .failed => "failed"
  | .refunded => "refunded"
  | .cancelled => "cancelled"

/-- One edge of the transition table.  The source field `from` is a Lean
keyword, so it is called `fromState` here (and `to` becomes `toState`). -/
structure StateTransition where
  fromState : OrderStatus
  toState : OrderStatus
  requiresRole : Option (List String) := none
  requiresApproval : Option Bool := none
deriving DecidableEq, Repr

structure TransitionResult where
  allowed : Bool
  reason : Option String := none
deriving DecidableEq, Repr

namespace OrderStateMachine

/-- `OrderStateMachine.transitions`: the fixed allow-list of edges. -/
def transitions : List StateTransition :=
  [ -- Initial transitions
    { fromState := .pending, toState := .payment_confirmed },
    { fromState := .pending, toState := .cancelled },
    -- Payment confirmed transitions
    { fromState := .payment_confirmed, toState := .approved,
      requiresRole := some ["super_admin", "admin"] },
    { fromState := .payment_confirmed, toState := .processing },
    { fromState := .payment_confirmed, toState := .cancelled,
      requiresRole := some ["super_admin", "admin"] },
    -- Approved transitions
    { fromState := .approved, toState := .processing },
    { fromState := .approved, toState := .cancelled,
      requiresRole := some ["super_admin", "admin"] },
    -- Processing transitions
    { fromState := .processing, toState := .delivered },
    { fromState := .processing, toState := .failed },
    -- Failed transitions
    { fromState := .failed, toState := .processing },
    { fromState := .failed, toState := .refunded,
      requiresRole := some ["super_admin", "admin"] },
    { fromState := .failed, toState := .cancelled,
      requiresRole := some ["super_admin", "admin"] },
    -- Delivered transitions
    { fromState := .delivered, toState := .refunded,
      requiresRole := some ["super_admin", "admin"] } ]

/-- `OrderStateMachine.canTransition`.  The caller role is an
`Option String`; the source guard `transition.requiresRole && userRole`
skips the role check when the role is absent or the empty string (JS
falsiness). -/
def canTransition (fromS toS : OrderStatus) (userRole : Option String) :
    TransitionResult :=
  -- Same state is always allowed (idempotent)
  if fromS = toS then { allowed := true }
  else
    match transitions.find? (fun t => t.fromState == fromS && t.toState == toS) with
    | none =>
        { allowed := false
          reason := some ("Transition from " ++ statusName fromS ++ " to "
            ++ statusName toS ++ " is not allowed") }
    | some t =>
        match t.requiresRole, userRole with
        | some roles, some r =>
            if r ≠ "" then
              if roles.contains r then { allowed := true }
              else
                { allowed := false
                  reason := some ("Role " ++ r ++ " cannot perform this transition") }
            else { allowed := true }
        | _, _ => { allowed := true }

/-- `OrderStateMachine.isTerminalState` -/
def isTerminalState (status : OrderStatus) : Bool :=
  [OrderStatus.delivered, OrderStatus.refunded, OrderStatus.cancelled].contains status

end OrderStateMachine

/-- A transition request is rejected: not allowed, with a non-empty reason. -/
def rejectedWithReason (r : TransitionResult) : Prop :=
  r.allowed = false ∧ ∃ s, r.reason = some s ∧ s ≠ ""

/-- An emitted ledger entry is immediately effective: status `completed`,
type equal to the invoked operation, amount equal to the input amount,
and a set `completedAt` timestamp. -/
def emitsCompleted (tx : Transaction) (ty : TransactionType) (amount : Int)
    (now : String) : Prop :=
  tx.status = TransactionStatus.completed ∧ tx.type = ty
    ∧ tx.amount = amount ∧ tx.completedAt = some now

/-- Concrete input used by the C10 witness. -/
def cwInput : TransactionCreateInput :=
  { tenantId := "t1", walletId := "w1", type := .credit, amount := 5,
    createdBy := "u1" }

/-- The transaction `WalletManager.credit` emits for `cwInput`. -/
def cwTx : Transaction :=
  { tenantId := "t1", walletId := "w1", type := .credit, amount := 5,
    currency := "USD", status := .completed,
    description := some "Wallet credit", createdBy := some "u1",
    completedAt := some "now" }

/-- Concrete ledger entry funding the wallet of the C3 witness. -/
def c3Credit : Transaction :=
  { tenantId := "t1", walletId := "w1", type := .credit, amount := 100,
    currency := "USD", status := .completed }

/-- The lock entry `processOrderPayment` emits in the C3 witness. -/
def c3Lock : Transaction :=
  { tenantId := "t1", walletId := "w1", type := .lock, amount := 50,
    currency := "USD", status := .completed, referenceType := some "order",
    referenceId := some "o1", description := some "Payment for order o1",
    createdBy := some "u1", completedAt := some "n1" }

/-- The unlock entry `completeOrderPayment` emits in the C3 witness. -/
def c3Unlock : Transaction :=
  { tenantId := "t1", walletId := "w1", type := .unlock, amount := 50,
    currency := "USD", status := .completed, referenceType := some "order",
    referenceId := some "o1", parentTransactionId := some "lt1",
    description := some "Unlock for order o1",
    createdBy := some "u1", completedAt := some "n2" }

/-- The debit entry `completeOrderPayment` emits in the C3 witness. -/
def c3Debit : Transaction :=
  { tenantId := "t1", walletId := "w1", type := .debit, amount := 50,
    currency := "USD", status := .completed, referenceType := some "order",
    referenceId := some "o1", description := some "Payment for order o1",
    createdBy := some "u1", completedAt := some "n2" }

/-! ## Pricing engine -/

inductive MarkupType where
  | fixed | percentage | tiered
deriving DecidableEq, Repr

structure Tier where
  minQuantity : Int
  maxQuantity : Option Int := none
  markupValue : Int
deriving DecidableEq, Repr

structure TierConfig where
  tiers : List Tier
deriving DecidableEq, Repr

structure PricingRule where
  id : String
  serviceId : String
  role : String
  markupType : MarkupType
  markupValue : Int
  minProfit : Option Int := none
  maxProfit : Option Int := none
  tierConfig : Option TierConfig := none
deriving DecidableEq, Repr

structure PriceCalculation where
  baseCost : Int
  markup : Int
  totalAmount : Int
  profit : Int
  currency : String
  appliedRule : Option PricingRule := none
deriving DecidableEq, Repr

structure RoleUser where
  role : String
  userId : String
deriving DecidableEq, Repr

structure ProfitShare where
  userId : String
  role : String
  profit : Int
deriving DecidableEq, Repr

structure RuleValidation where
  valid : Bool
  errors : Option (List String) := none
deriving DecidableEq, Repr

namespace PricingEngine

/-- `PricingEngine.calculateTieredMarkup`: pick the tier whose
`[minQuantity, maxQuantity]` range contains the quantity; with no match,
fall back to the first configured tier.  (On an empty tier list the
source dereferences `undefined` and throws; that branch returns 0 here
and is unreachable for rules accepted by `validateRule`.) -/
def calculateTieredMarkup (baseCost : Int) (tierConfig : TierConfig)
    (quantity : Int) : Int :=
  match tierConfig.tiers.find? (fun t =>
      decide (t.minQuantity ≤ quantity) &&
        (match t.maxQuantity with
         | none => true
         | some m => decide (quantity ≤ m))) with
  | some tier => Int.fdiv (baseCost * tier.markupValue) 10000
  | none =>
    match tierConfig.tiers with
    | [] => 0
    | firstTier :: _ => Int.fdiv (baseCost * firstTier.markupValue) 10000

/-- `PricingEngine.calculatePrice` -/
def calculatePrice (baseCost : Int) (rules : List PricingRule)
    (userRole : String) (quantity : Int := 1) (currency : String := "USD") :
    PriceCalculation :=
  match rules.find? (fun r => r.role == userRole) with
  | none =>
      -- No markup rule: return base cost
      { baseCost := baseCost, markup := 0, totalAmount := baseCost * quantity,
        profit := 0, currency := currency }
  | some rule =>
      let markup0 : Int :=
        match rule.markupType with
        | .fixed => rule.markupValue
        | .percentage =>
            -- markupValue is in basis points (1000 = 10%)
            Int.fdiv (baseCost * rule.markupValue) 10000
        | .tiered =>
            match rule.tierConfig with
            | some cfg => calculateTieredMarkup baseCost cfg quantity
            | none => 0
      -- Apply profit limits
      let markup1 : Int :=
        match rule.minProfit with
        | some m => if markup0 < m then m else markup0
        | none => markup0
      let markup : Int :=
        match rule.maxProfit with
        | some m => if markup1 > m then m else markup1
        | none => markup1
      { baseCost := baseCost, markup := markup,
        totalAmount := (baseCost + markup) * quantity,
        profit := markup * quantity, currency := currency,
        appliedRule := some rule }

/-- The `roleProfit` computed for one hierarchy level of
`calculateProfitDistribution` when a rule matched and the pool is still
positive: the configured share capped by the remaining pool, then the
min/max profit limits (the `min` against the pool is reapplied when
raising to `minProfit`; the `maxProfit` cap is not). -/
def distRoleProfit (baseCost : Int) (rule : PricingRule)
    (remainingProfit : Int) : Int :=
  let p0 : Int :=
    match rule.markupType with
    | .fixed => min rule.markupValue remainingProfit
    | .percentage =>
        min (Int.fdiv (baseCost * rule.markupValue) 10000) remainingProfit
    | .tiered => 0  -- the source switch has no tiered case
  -- Apply profit limits
  let p1 : Int :=
    match rule.minProfit with
    | some m => if p0 < m then min m remainingProfit else p0
    | none => p0
  match rule.maxProfit with
  | some m => if p1 > m then m else p1
  | none => p1

/-- Loop body of `PricingEngine.calculateProfitDistribution`: the state is
the remaining pool paired with the shares pushed so far. -/
def distStep (baseCost : Int) (rules : List PricingRule)
    (st : Int × List ProfitShare) (ru : RoleUser) : Int × List ProfitShare :=
  let remainingProfit := st.1
  match rules.find? (fun r => r.role == ru.role) with
  | none => (remainingProfit, st.2 ++ [{ userId := ru.userId, role := ru.role, profit := 0 }])
  | some rule =>
      if remainingProfit ≤ 0 then
        (remainingProfit, st.2 ++ [{ userId := ru.userId, role := ru.role, profit := 0 }])
      else
        let p := distRoleProfit baseCost rule remainingProfit
        (remainingProfit - p, st.2 ++ [{ userId := ru.userId, role := ru.role, profit := p }])

/-- `PricingEngine.calculateProfitDistribution`: walk the hierarchy
bottom-up (the source iterates the array from its last index), pushing
one share per level, then reverse the accumulated list. -/
def calculateProfitDistribution (baseCost finalPrice : Int)
    (roleHierarchy : List RoleUser) (rules : List PricingRule) :
    List ProfitShare :=
  let r := roleHierarchy.reverse.foldl (distStep baseCost rules)
    (finalPrice - baseCost, [])
  r.2.reverse

/-- Stable insertion into a tier list ordered by `minQuantity` (model of
one step of `Array.prototype.sort` with the comparator
`(a, b) => a.minQuantity - b.minQuantity`, which is a stable sort): the
inserted element walks past strictly smaller keys only, so it lands
before any tier with an equal `minQuantity` already in the list.  Since
`sortTiers` inserts each element into its sorted *tail*, tiers with equal
keys keep their original relative order, as in the stable source sort. -/
def insertTier (t : Tier) : List Tier → List Tier
  | [] => [t]
  | u :: us =>
      if u.minQuantity < t.minQuantity then u :: insertTier t us
      else t :: u :: us

/-- Stable sort of the tier list by `minQuantity`. -/
def sortTiers : List Tier → List Tier
  | [] => []
  | t :: ts => insertTier t (sortTiers ts)

/-- The overlap scan of `validateRule` over adjacent sorted tiers:
`current.maxQuantity && current.maxQuantity >= next.minQuantity`
(a `maxQuantity` of 0 is falsy in JS and skips the check). -/
def hasOverlap : List Tier → Bool
  | t1 :: t2 :: rest =>
      (match t1.maxQuantity with
       | some m => m ≠ 0 && decide (t2.minQuantity ≤ m)
       | none => false)
      || hasOverlap (t2 :: rest)
  | _ => false

/-- The error list accumulated by `PricingEngine.validateRule`; each
`errors.push` appends at the end, so the list is the concatenation of
the four independent checks in source order. -/
def ruleErrors (rule : PricingRule) : List String :=
  (if rule.markupValue < 0 then ["Markup value cannot be negative"] else [])
  ++ (if rule.markupType = MarkupType.percentage ∧ rule.markupValue > 10000 then
        ["Percentage markup cannot exceed 100% (10000 basis points)"]
      else [])
  ++ (match rule.minProfit, rule.maxProfit with
      | some mn, some mx =>
          if mn > mx then ["Minimum profit cannot exceed maximum profit"] else []
      | _, _ => [])
  ++ (if rule.markupType = MarkupType.tiered then
        match rule.tierConfig with
        | none => ["Tiered markup requires tier configuration"]
        | some cfg =>
            if cfg.tiers.isEmpty then ["Tiered markup requires tier configuration"]
            else if hasOverlap (sortTiers cfg.tiers) then
              ["Tier ranges cannot overlap"]
            else []
      else [])

/-- `PricingEngine.validateRule` -/
def validateRule (rule : PricingRule) : RuleValidation :=
  { valid := (ruleErrors rule).isEmpty
    errors := if (ruleErrors rule).isEmpty then none else some (ruleErrors rule) }

end PricingEngine

/-- Sum of the profits of a list of shares. -/
def sumProfits (l : List ProfitShare) : Int :=
  (l.map (fun s => s.profit)).sum

/-- Concrete percentage rule of the C5 scenario: 1000 basis points. -/
def c5Rule : PricingRule :=
  { id := "r1", serviceId := "s1", role := "wholesale",
    markupType := .percentage, markupValue := 1000 }

/-- Fixed-markup rule with a negative `maxProfit`, accepted by
`validateRule` (C6 counterexample). -/
def c6FixedRule : PricingRule :=
  { id := "r2", serviceId := "s1", role := "reseller",
    markupType := .fixed, markupValue := 0, maxProfit := some (-5) }

/-- Tiered rule with a negative tier markup value, accepted by
`validateRule` (C6 counterexample). -/
def c6TierRule : PricingRule :=
  { id := "r3", serviceId := "s1", role := "reseller",
    markupType := .tiered, markupValue := 0,
    tierConfig := some ⟨[{ minQuantity := 0, markupValue := -5000 }]⟩ }

/-- Percentage rule used by the C9 counterexample and witness. -/
def c9Rule : PricingRule :=
  { id := "r4", serviceId := "s1", role := "agent",
    markupType := .percentage, markupValue := 10000 }

/-! ## Schema validator

The validator manipulates untyped JavaScript values; these are modelled
by `JSValue` (numbers as `Int`, matching the repository's integer
amounts).  JS objects used as string-keyed maps are association lists,
with assignment replacing an existing key in place or appending.
Regular-expression tests (`new RegExp(pattern).test(value)`) are a
parameter `rtest : String → String → Bool` of the embedding; the
concrete oracle `imeiRegexTest` below interprets the one pattern of the
claim's scenario. -/

inductive JSValue where
  | str (s : String)
  | num (n : Int)
  | bool (b : Bool)
  | null
  | undefined
deriving DecidableEq, Repr

/-- Property read `m[k]`: a missing key yields `undefined`. -/
def jsGet (m : List (String × JSValue)) (k : String) : JSValue :=
  match m.find? (fun p => p.1 == k) with
  | some p => p.2
  | none => .undefined

/-- Property write `m[k] = v`: replaces the value of an existing key,
otherwise appends the key. -/
def jsSet {α : Type} (m : List (String × α)) (k : String) (v : α) :
    List (String × α) :=
  if m.any (fun p => p.1 == k) then
    m.map (fun p => if p.1 == k then (k, v) else p)
  else m ++ [(k, v)]

/-- JS truthiness (`Boolean(value)`). -/
def jsTruthy : JSValue → Bool
  | .str s => s ≠ ""
  | .num n => n ≠ 0
  | .bool b => b
  | .null => false
  | .undefined => false

/-- `Number(value)`, with `none` standing for `NaN`.  String conversion
is restricted to the integer-valued numerals this system uses. -/
def jsNumber : JSValue → Option Int
  | .str s => let t := s.trim; if t = "" then some 0 else t.toInt?
  | .num n => some n
  | .bool b => some (if b then 1 else 0)
  | .null => some 0
  | .undefined => none

/-- `typeof value === 'number'` -/
def isNumJS : JSValue → Bool
  | .num _ => true
  | _ => false

/-- `String(value)` -/
def jsString : JSValue → String
  | .str s => s
  | .num n => toString n
  | .bool b => if b then "true" else "false"
  | .null => "null"
  | .undefined => "undefined"

/-- `value === undefined || value === null || value === ''` -/
def isEmptyInput (v : JSValue) : Bool :=
  v == .undefined || v == .null || v == .str ""

inductive FieldType where
  | text | number | email | file | select | textarea | checkbox
deriving DecidableEq, Repr

structure FieldValidation where
  pattern : Option String := none
  minLength : Option Int := none
  maxLength : Option Int := none
  min : Option Int := none
  max : Option Int := none
  options : Option (List String) := none
  unique : Option Bool := none
  custom : Option String := none
deriving DecidableEq, Repr

structure FieldSchema where
  name : String
  type : FieldType
  label : String
  required : Bool
  placeholder : Option String := none
  description : Option String := none
  validation : Option FieldValidation := none
deriving DecidableEq, Repr

structure ServiceInputSchema where
  fields : List FieldSchema
deriving DecidableEq, Repr

structure ValidationResult where
  valid : Bool
  errors : Option (List (String × List String)) := none
  data : Option (List (String × JSValue)) := none
deriving DecidableEq, Repr

namespace SchemaValidator

/-- The per-field work of one iteration of `SchemaValidator.validate`:
the collected `fieldErrors` for the field, paired with the value the
iteration writes into `data` (if any).  The iteration reads only the
field and the raw input, never the accumulated state. -/
def checkField (rtest : String → String → Bool)
    (input : List (String × JSValue)) (field : FieldSchema) :
    List String × Option JSValue :=
  let value := jsGet input field.name
  -- Required validation (sets the error and continues)
  if field.required && isEmptyInput value then
    ([field.label ++ " is required"], none)
  -- Skip further validation if not required and empty
  else if !field.required && isEmptyInput value then
    ([], none)
  else
    -- Type validation / coercion
    let typed : List String × Option JSValue :=
      match field.type with
      | .number =>
          if !isNumJS value && (jsNumber value).isNone then
            ([field.label ++ " must be a number"], none)
          else ([], some (JSValue.num ((jsNumber value).getD 0)))
      | .email =>
          match value with
          | .str s =>
              if rtest emailPatternSource s then ([], some value)
              else ([field.label ++ " must be a valid email"], none)
          | _ => ([field.label ++ " must be a valid email"], none)
      | .checkbox => ([], some (JSValue.bool (jsTruthy value)))
      | _ => ([], some value)
    -- Additional validation rules, only when no type error occurred
    let ruleErrs : List String :=
      match field.validation with
      | none => []
      | some v =>
          if typed.1 = [] then
            -- Pattern validation (a falsy, i.e. empty, pattern is skipped)
            (match v.pattern with
             | some p =>
                 if p ≠ "" then
                   match value with
                   | .str s =>
                       if rtest p s then [] else [field.label ++ " format is invalid"]
                   | _ => []
                 else []
             | none => [])
            -- Length validation (a minLength/maxLength of 0 is falsy and skipped)
            ++ (match v.minLength with
                | some m =>
                    if m ≠ 0 then
                      match value with
                      | .str s =>
                          if (s.length : Int) < m then
                            [field.label ++ " must be at least " ++ toString m
                              ++ " characters"]
                          else []
                      | _ => []
                    else []
                | none => [])
            ++ (match v.maxLength with
                | some m =>
                    if m ≠ 0 then
                      match value with
                      | .str s =>
                          if (s.length : Int) > m then
                            [field.label ++ " must be at most " ++ toString m
                              ++ " characters"]
                          else []
                      | _ => []
                    else []
                | none => [])
            -- Number range validation (explicit undefined checks; a NaN
            -- comparison is false and raises no error)
            ++ (match v.min with
                | some m =>
                    match jsNumber value with
                    | some n =>
                        if n < m then
                          [field.label ++ " must be at least " ++ toString m]
                        else []
                    | none => []
                | none => [])
            ++ (match v.max with
                | some m =>
                    match jsNumber value with
                    | some n =>
                        if n > m then
                          [field.label ++ " must be at most " ++ toString m]
                        else []
                    | none => []
                | none => [])
            -- Select options validation (an array, even empty, is truthy)
            ++ (match v.options with
                | some opts =>
                    if opts.contains (jsString value) then []
                    else [field.label ++ " must be one of: "
                      ++ String.intercalate ", " opts]
                | none => [])
          else []
    (typed.1 ++ ruleErrs, typed.2)
where
  /-- The source pattern of `isValidEmail`. -/
  emailPatternSource : String := "^[^\\s@]+@[^\\s@]+\\.[^\\s@]+$"

/-- The field loop of `SchemaValidator.validate`, threading the `errors`
and `data` objects. -/
def validateLoop (rtest : String → String → Bool)
    (input : List (String × JSValue)) :
    List FieldSchema → List (String × List String) → List (String × JSValue) →
    List (String × List String) × List (String × JSValue)
  | [], errors, data => (errors, data)
  | field :: rest, errors, data =>
      validateLoop rtest input rest
        (if (checkField rtest input field).1 = [] then errors
         else jsSet errors field.name (checkField rtest input field).1)
        (match (checkField rtest input field).2 with
         | some v => jsSet data field.name v
         | none => data)

/-- `SchemaValidator.validate` -/
def validate (rtest : String → String → Bool) (schema : ServiceInputSchema)
    (input : List (String × JSValue)) : ValidationResult :=
  let r := validateLoop rtest input schema.fields [] []
  { valid := r.1.isEmpty
    errors := if r.1.isEmpty then none else some r.1
    data := if r.1.isEmpty then some r.2 else none }

end SchemaValidator

/-- The key set of the errors object of a validation result. -/
def errKeys (r : ValidationResult) : List String :=
  match r.errors with
  | some m => m.map (fun p => p.1)
  | none => []

/-- The required 15-digit `imei` field of `exampleIMEISchema`. -/
def imeiField : FieldSchema :=
  { name := "imei", type := .text, label := "IMEI Number", required := true,
    placeholder := some "123456789012345",
    description := some "15-digit IMEI number",
    validation := some ({ pattern := some "^[0-9]{15}$",
                          minLength := some 15,
                          maxLength := some 15 } : FieldValidation) }

/-- The optional `model` field of `exampleIMEISchema`. -/
def modelField : FieldSchema :=
  { name := "model", type := .text, label := "Device Model",
    required := false, placeholder := some "iPhone 14 Pro" }

/-- `exampleIMEISchema` from the source: a required 15-digit `imei` text
field and an optional `model` text field. -/
def exampleIMEISchema : ServiceInputSchema :=
  { fields := [imeiField, modelField] }

/-- Semantics of the JavaScript regular expression `^[0-9]{15}$` used by
`exampleIMEISchema`: an anchored run of exactly 15 ASCII digits.  Other
patterns are not interpreted by this oracle. -/
def imeiRegexTest (pattern s : String) : Bool :=
  if pattern = "^[0-9]{15}$" then
    s.data.length == 15 && s.data.all Char.isDigit
  else false

/-! ## Theorems -/

theorem sumCompleted_nil (ty : TransactionType) : sumCompleted [] ty = 0 := rfl

theorem sumCompleted_cons (tx : Transaction) (txs : List Transaction)
    (ty : TransactionType) :
    sumCompleted (tx :: txs) ty =
      (if tx.status = TransactionStatus.completed ∧ tx.type = ty then tx.amount
       else 0) + sumCompleted txs ty := by
  simp only [sumCompleted, List.filter_cons]
  by_cases h : tx.status = TransactionStatus.completed ∧ tx.type = ty
  · simp [h]
  · simp [h]

theorem foldl_balanceStep (txs : List Transaction) (a b : Int) :
    txs.foldl WalletManager.balanceStep (a, b) =
      (a + sumCompleted txs .credit - sumCompleted txs .debit
         - sumCompleted txs .lock + sumCompleted txs .unlock
         + sumCompleted txs .refund,
       b + sumCompleted txs .lock - sumCompleted txs .unlock) := by
  induction txs generalizing a b with
  | nil => simp [sumCompleted]
  | cons tx txs ih =>
    by_cases hs : tx.status = TransactionStatus.completed
    · cases ht : tx.type <;>
        simp_all [WalletManager.balanceStep, sumCompleted_cons] <;> omega
    · simp_all [WalletManager.balanceStep, sumCompleted_cons]

/-- C1: `WalletManager.calculateBalance` returns
`available = Σ credits − Σ debits − Σ locks + Σ unlocks + Σ refunds`
and `locked = Σ locks − Σ unlocks`, the sums ranging over the
transactions with status `completed` only (entries in any other status
contribute nothing), and `total = available + locked`. -/
theorem calculateBalance_spec (txs : List Transaction) :
    (WalletManager.calculateBalance txs).available =
        sumCompleted txs .credit - sumCompleted txs .debit
          - sumCompleted txs .lock + sumCompleted txs .unlock
          + sumCompleted txs .refund
      ∧ (WalletManager.calculateBalance txs).locked =
        sumCompleted txs .lock - sumCompleted txs .unlock
      ∧ (WalletManager.calculateBalance txs).total =
        (WalletManager.calculateBalance txs).available +
          (WalletManager.calculateBalance txs).locked := by
  have h := foldl_balanceStep txs 0 0
  refine ⟨?_, ?_, rfl⟩
  · show (txs.foldl WalletManager.balanceStep (0, 0)).1 = _
    rw [h]; ring
  · show (txs.foldl WalletManager.balanceStep (0, 0)).2 = _
    rw [h]; ring

/-- C2 (counterexample): `delivered` is a terminal state, yet the
transition table contains the outbound edge `delivered → refunded`
(admin-gated), and `canTransition` allows it for role `admin` — so the
claim that every outbound transition from a terminal state is rejected
is false. -/
theorem canTransition_delivered_refunded_allowed :
    OrderStateMachine.isTerminalState OrderStatus.delivered = true
      ∧ (OrderStateMachine.canTransition OrderStatus.delivered
          OrderStatus.refunded (some "admin")).allowed = true := by
  exact ⟨rfl, rfl⟩

/-- C2 (amended): the terminal states `refunded` and `cancelled` have no
outbound edges: for every target state different from them and every
caller role (including no role), `canTransition` rejects with a
non-empty reason.  From `delivered`, every target other than `delivered`
itself and `refunded` is likewise rejected (the single outbound edge
`delivered → refunded` is the exception established by the
counterexample). -/
theorem terminal_states_reject_outbound (t : OrderStatus) (role : Option String) :
    (t ≠ OrderStatus.refunded →
        rejectedWithReason (OrderStateMachine.canTransition OrderStatus.refunded t role))
      ∧ (t ≠ OrderStatus.cancelled →
        rejectedWithReason (OrderStateMachine.canTransition OrderStatus.cancelled t role))
      ∧ (t ≠ OrderStatus.delivered → t ≠ OrderStatus.refunded →
        rejectedWithReason (OrderStateMachine.canTransition OrderStatus.delivered t role)) := by
  refine ⟨fun h1 => ?_, fun h1 => ?_, fun h1 h2 => ?_⟩
  · cases t <;> first
      | exact absurd rfl h1
      | exact ⟨rfl, _, rfl, by decide⟩
  · cases t <;> first
      | exact absurd rfl h1
      | exact ⟨rfl, _, rfl, by decide⟩
  · cases t <;> first
      | exact absurd rfl h1
      | exact absurd rfl h2
      | exact ⟨rfl, _, rfl, by decide⟩

/-- Witness for the amended C2 theorem at a concrete input. -/
theorem terminal_states_reject_outbound_witness :
    rejectedWithReason (OrderStateMachine.canTransition OrderStatus.refunded
      OrderStatus.pending (some "admin")) :=
  (terminal_states_reject_outbound OrderStatus.pending (some "admin")).1 (by decide)

/-- C7 (counterexample): the edge `payment_confirmed → approved` carries
the required-role set `["super_admin", "admin"]`, yet a caller supplying
no role at all is allowed: the source only enforces the role gate when
`userRole` is truthy. -/
theorem roleGate_skipped_without_role :
    ({ fromState := OrderStatus.payment_confirmed
       toState := OrderStatus.approved
       requiresRole := some ["super_admin", "admin"] } : StateTransition)
        ∈ OrderStateMachine.transitions
      ∧ (OrderStateMachine.canTransition OrderStatus.payment_confirmed
          OrderStatus.approved none).allowed = true := by
  exact ⟨by decide, rfl⟩

/-- C7 (amended): a role-gated edge rejects every caller that supplies a
non-empty role outside the required set, with a non-empty reason; a
caller supplying no role (or the empty string) bypasses the role check
and is allowed, as the counterexample shows. -/
theorem roleGated_rejects_wrong_role (fromS toS : OrderStatus)
    (e : StateTransition) (roles : List String) (r : String)
    (hne : fromS ≠ toS)
    (hfind : OrderStateMachine.transitions.find?
        (fun t => t.fromState == fromS && t.toState == toS) = some e)
    (hroles : e.requiresRole = some roles)
    (hr : r ≠ "") (hmem : r ∉ roles) :
    rejectedWithReason (OrderStateMachine.canTransition fromS toS (some r)) := by
  have hcontains : roles.contains r = false := by
    simpa using hmem
  obtain ⟨fs, ts, rr, ra⟩ := e
  have hrr : rr = some roles := hroles
  subst hrr
  unfold OrderStateMachine.canTransition
  rw [if_neg hne, hfind]
  simp only [hr, hcontains, ne_eq, not_false_eq_true, if_true, ite_true,
    Bool.false_eq_true, if_false, ite_false]
  refine ⟨rfl, "Role " ++ r ++ " cannot perform this transition", rfl, ?_⟩
  intro hcontra
  have hlen := congrArg String.length hcontra
  simp [String.length_append] at hlen
  exact absurd hlen.1.1 (by decide)

/-- C4: for a positive amount, `WalletManager.debit` and
`WalletManager.lock` fail with an `INSUFFICIENT_BALANCE` error exactly
when the available balance is strictly below the amount (and then no
transaction object is produced — the `Except.error` result carries
none); otherwise each returns exactly one transaction of the matching
type for the requested amount. -/
theorem debit_lock_insufficient_iff (input : TransactionCreateInput)
    (bal : WalletBalance) (now : String) (hpos : 0 < input.amount) :
    ((∃ e, WalletManager.debit input bal now = Except.error e
        ∧ e.code = "INSUFFICIENT_BALANCE") ↔ bal.available < input.amount)
    ∧ ((∃ e, WalletManager.lock input bal now = Except.error e
        ∧ e.code = "INSUFFICIENT_BALANCE") ↔ bal.available < input.amount)
    ∧ (¬ bal.available < input.amount →
        (∃ tx, WalletManager.debit input bal now = Except.ok tx
          ∧ tx.type = TransactionType.debit ∧ tx.amount = input.amount)
        ∧ (∃ tx, WalletManager.lock input bal now = Except.ok tx
          ∧ tx.type = TransactionType.lock ∧ tx.amount = input.amount)) := by
  have h0 : ¬ input.amount ≤ 0 := not_le.mpr hpos
  by_cases hb : bal.available < input.amount <;>
    simp [WalletManager.debit, WalletManager.lock, h0, hb]

/-- Witness for the C4 theorem at a concrete input. -/
theorem debit_lock_insufficient_iff_witness :
    let input : TransactionCreateInput :=
      { tenantId := "t1", walletId := "w1", type := .debit, amount := 50,
        createdBy := "u1" }
    let bal : WalletBalance :=
      { available := 100, locked := 0, total := 100, currency := "USD" }
    (∃ tx, WalletManager.debit input bal "now" = Except.ok tx
      ∧ tx.type = TransactionType.debit ∧ tx.amount = input.amount)
    ∧ (∃ tx, WalletManager.lock input bal "now" = Except.ok tx
      ∧ tx.type = TransactionType.lock ∧ tx.amount = input.amount) :=
  (debit_lock_insufficient_iff _ _ "now" (by decide)).2.2 (by decide)

/-- Witness for the amended C7 theorem at a concrete input. -/
theorem roleGated_rejects_wrong_role_witness :
    rejectedWithReason (OrderStateMachine.canTransition
      OrderStatus.payment_confirmed OrderStatus.approved (some "reseller")) :=
  roleGated_rejects_wrong_role OrderStatus.payment_confirmed OrderStatus.approved
    _ ["super_admin", "admin"] "reseller" (by decide) rfl rfl (by decide) (by decide)

theorem credit_ok_fields (input : TransactionCreateInput) (now : String)
    (tx : Transaction) (h : WalletManager.credit input now = Except.ok tx) :
    emitsCompleted tx .credit input.amount now := by
  unfold WalletManager.credit at h
  split at h
  · exact absurd h (by simp)
  · injection h with h'
    subst h'
    exact ⟨rfl, rfl, rfl, rfl⟩

theorem debit_ok_fields (input : TransactionCreateInput) (bal : WalletBalance)
    (now : String) (tx : Transaction)
    (h : WalletManager.debit input bal now = Except.ok tx) :
    emitsCompleted tx .debit input.amount now := by
  unfold WalletManager.debit at h
  split at h
  · exact absurd h (by simp)
  · split at h
    · exact absurd h (by simp)
    · injection h with h'
      subst h'
      exact ⟨rfl, rfl, rfl, rfl⟩

theorem lock_ok_fields (input : TransactionCreateInput) (bal : WalletBalance)
    (now : String) (tx : Transaction)
    (h : WalletManager.lock input bal now = Except.ok tx) :
    emitsCompleted tx .lock input.amount now := by
  unfold WalletManager.lock at h
  split at h
  · exact absurd h (by simp)
  · split at h
    · exact absurd h (by simp)
    · injection h with h'
      subst h'
      exact ⟨rfl, rfl, rfl, rfl⟩

theorem unlock_ok_fields (input : TransactionCreateInput)
    (lockTransactionId : String) (bal : WalletBalance) (now : String)
    (tx : Transaction)
    (h : WalletManager.unlock input lockTransactionId bal now = Except.ok tx) :
    emitsCompleted tx .unlock input.amount now := by
  unfold WalletManager.unlock at h
  split at h
  · exact absurd h (by simp)
  · split at h
    · exact absurd h (by simp)
    · injection h with h'
      subst h'
      exact ⟨rfl, rfl, rfl, rfl⟩

theorem refund_ok_fields (input : TransactionCreateInput)
    (originalTransactionId : String) (now : String) (tx : Transaction)
    (h : WalletManager.refund input originalTransactionId now = Except.ok tx) :
    emitsCompleted tx .refund input.amount now := by
  unfold WalletManager.refund at h
  split at h
  · exact absurd h (by simp)
  · injection h with h'
    subst h'
    exact ⟨rfl, rfl, rfl, rfl⟩

theorem completeOrderPayment_ok (walletId tenantId orderId : String)
    (amount : Int) (lockTransactionId userId : String) (bal : WalletBalance)
    (now : String) (u d : Transaction)
    (h : WalletManager.completeOrderPayment walletId tenantId orderId amount
      lockTransactionId userId bal now = Except.ok (u, d)) :
    emitsCompleted u .unlock amount now ∧ emitsCompleted d .debit amount now := by
  unfold WalletManager.completeOrderPayment at h
  simp only [bind, Except.bind, pure, Except.pure] at h
  split at h
  · exact absurd h (by simp)
  · rename_i u' hu
    split at h
    · exact absurd h (by simp)
    · rename_i d' hd
      injection h with h'
      obtain ⟨rfl, rfl⟩ := Prod.mk.injEq .. ▸ And.intro (congrArg Prod.fst h') (congrArg Prod.snd h')
      exact ⟨unlock_ok_fields _ _ _ _ _ hu, debit_ok_fields _ _ _ _ hd⟩

/-- C10: every transaction the wallet manager emits — through the five
primitive operations and the four order-payment workflows — has status
`completed`, the type of the invoked operation, the requested amount,
and a set `completedAt` timestamp; the manager never emits a `pending`
entry. -/
theorem wallet_ops_emit_completed :
    (∀ input now tx, WalletManager.credit input now = Except.ok tx →
      emitsCompleted tx .credit input.amount now)
    ∧ (∀ input bal now tx, WalletManager.debit input bal now = Except.ok tx →
      emitsCompleted tx .debit input.amount now)
    ∧ (∀ input bal now tx, WalletManager.lock input bal now = Except.ok tx →
      emitsCompleted tx .lock input.amount now)
    ∧ (∀ input ltid bal now tx,
      WalletManager.unlock input ltid bal now = Except.ok tx →
      emitsCompleted tx .unlock input.amount now)
    ∧ (∀ input otid now tx, WalletManager.refund input otid now = Except.ok tx →
      emitsCompleted tx .refund input.amount now)
    ∧ (∀ wid tid oid amount uid bal now tx,
      WalletManager.processOrderPayment wid tid oid amount uid bal now
        = Except.ok tx → emitsCompleted tx .lock amount now)
    ∧ (∀ wid tid oid amount ltid uid bal now u d,
      WalletManager.completeOrderPayment wid tid oid amount ltid uid bal now
        = Except.ok (u, d) →
      emitsCompleted u .unlock amount now ∧ emitsCompleted d .debit amount now)
    ∧ (∀ wid tid oid amount ltid uid bal now tx,
      WalletManager.cancelOrderPayment wid tid oid amount ltid uid bal now
        = Except.ok tx → emitsCompleted tx .unlock amount now)
    ∧ (∀ wid tid oid amount otid uid now tx,
      WalletManager.refundOrder wid tid oid amount otid uid now
        = Except.ok tx → emitsCompleted tx .refund amount now) := by
  refine ⟨credit_ok_fields, debit_ok_fields, lock_ok_fields,
    unlock_ok_fields, refund_ok_fields, ?_, ?_, ?_, ?_⟩
  · intro wid tid oid amount uid bal now tx h
    exact lock_ok_fields _ _ _ _ h
  · intro wid tid oid amount ltid uid bal now u d h
    exact completeOrderPayment_ok _ _ _ _ _ _ _ _ _ _ h
  · intro wid tid oid amount ltid uid bal now tx h
    exact unlock_ok_fields _ _ _ _ _ h
  · intro wid tid oid amount otid uid now tx h
    exact refund_ok_fields _ _ _ _ h

/-- Witness for the C10 theorem: `credit` on a concrete input emits the
concrete completed transaction `cwTx`. -/
theorem wallet_ops_emit_completed_witness :
    WalletManager.credit cwInput "now" = Except.ok cwTx
      ∧ emitsCompleted cwTx .credit cwInput.amount "now" :=
  ⟨rfl, wallet_ops_emit_completed.1 cwInput "now" cwTx rfl⟩

theorem balanceStep_completed (acc : Int × Int) (tx : Transaction)
    (hs : tx.status = TransactionStatus.completed) :
    WalletManager.balanceStep acc tx =
      match tx.type with
      | .credit => (acc.1 + tx.amount, acc.2)
      | .debit => (acc.1 - tx.amount, acc.2)
      | .lock => (acc.1 - tx.amount, acc.2 + tx.amount)
      | .unlock => (acc.1 + tx.amount, acc.2 - tx.amount)
      | .refund => (acc.1 + tx.amount, acc.2) := by
  unfold WalletManager.balanceStep
  simp [hs]

/-- C3: on a ledger whose computed balance has `available ≥ amount > 0`,
appending the lock entry produced by `processOrderPayment` and then the
unlock and debit entries produced by `completeOrderPayment` (called, as
in the workflow, against the balance computed after the lock) yields an
available balance exactly `amount` lower than before the lock and an
unchanged locked balance. -/
theorem completeOrderPayment_net (txs : List Transaction) (amount : Int)
    (wid tid oid ltid uid n1 n2 : String)
    (hpos : 0 < amount)
    (havail : amount ≤ (WalletManager.calculateBalance txs).available)
    (lockTx u d : Transaction)
    (hl : WalletManager.processOrderPayment wid tid oid amount uid
      (WalletManager.calculateBalance txs) n1 = Except.ok lockTx)
    (hc : WalletManager.completeOrderPayment wid tid oid amount ltid uid
      (WalletManager.calculateBalance (txs ++ [lockTx])) n2 = Except.ok (u, d)) :
    (WalletManager.calculateBalance (txs ++ [lockTx, u, d])).available
        = (WalletManager.calculateBalance txs).available - amount
      ∧ (WalletManager.calculateBalance (txs ++ [lockTx, u, d])).locked
        = (WalletManager.calculateBalance txs).locked := by
  unfold WalletManager.processOrderPayment at hl
  obtain ⟨hls, hlt, hla, -⟩ := lock_ok_fields _ _ _ _ hl
  obtain ⟨⟨hus, hut, hua, -⟩, ⟨hds, hdt, hda, -⟩⟩ :=
    completeOrderPayment_ok _ _ _ _ _ _ _ _ _ _ hc
  have hla' : lockTx.amount = amount := hla
  have key : List.foldl WalletManager.balanceStep (0, 0) (txs ++ [lockTx, u, d])
      = ((List.foldl WalletManager.balanceStep (0, 0) txs).1 - amount,
         (List.foldl WalletManager.balanceStep (0, 0) txs).2) := by
    rw [List.foldl_append]
    simp only [List.foldl_cons, List.foldl_nil]
    rw [balanceStep_completed _ _ hls, balanceStep_completed _ _ hus,
      balanceStep_completed _ _ hds]
    simp only [hlt, hut, hdt, hla', hua, hda, Prod.mk.injEq]
    constructor <;> ring
  constructor
  · show (List.foldl WalletManager.balanceStep (0, 0) (txs ++ [lockTx, u, d])).1
        = (List.foldl WalletManager.balanceStep (0, 0) txs).1 - amount
    rw [key]
  · show (List.foldl WalletManager.balanceStep (0, 0) (txs ++ [lockTx, u, d])).2
        = (List.foldl WalletManager.balanceStep (0, 0) txs).2
    rw [key]

theorem ite_lt_eq_max (x m : Int) : (if x < m then m else x) = max x m := by
  split <;> omega

theorem ite_gt_eq_min (x m : Int) : (if x > m then m else x) = min x m := by
  split <;> omega

/-- C5: when the rule found for the caller's role has markup type
`percentage`, `calculatePrice` computes the raw markup
`floor(baseCost * markupValue / 10000)`, raises it to `minProfit` when
set and below (i.e. takes the `max`), caps it at `maxProfit` when set
and above (i.e. takes the `min`), and returns
`totalAmount = (baseCost + markup) * quantity` and
`profit = markup * quantity`; in particular markup value 1000 with base
cost 10000 and quantity 1 yields markup 1000 and total 11000. -/
theorem calculatePrice_percentage (baseCost : Int) (rules : List PricingRule)
    (userRole : String) (quantity : Int) (currency : String)
    (rule : PricingRule)
    (hfind : rules.find? (fun r => r.role == userRole) = some rule)
    (hty : rule.markupType = MarkupType.percentage) :
    (PricingEngine.calculatePrice baseCost rules userRole quantity currency =
      (let raw := Int.fdiv (baseCost * rule.markupValue) 10000
       let clampedLo :=
         match rule.minProfit with
         | some m => max raw m
         | none => raw
       let m :=
         match rule.maxProfit with
         | some m => min clampedLo m
         | none => clampedLo
       { baseCost := baseCost, markup := m,
         totalAmount := (baseCost + m) * quantity,
         profit := m * quantity, currency := currency,
         appliedRule := some rule }))
    ∧ (PricingEngine.calculatePrice 10000 [c5Rule] "wholesale" 1 "USD").markup = 1000
    ∧ (PricingEngine.calculatePrice 10000 [c5Rule] "wholesale" 1 "USD").totalAmount = 11000 := by
  refine ⟨?_, by decide, by decide⟩
  unfold PricingEngine.calculatePrice
  rw [hfind]
  simp only [hty, ite_lt_eq_max, ite_gt_eq_min]

/-- C6 (counterexample): `validateRule` accepts a fixed-markup rule with
a negative `maxProfit` and a tiered rule with a negative tier markup
value, and `calculatePrice` then returns a strictly negative markup for
a non-negative base cost — so the claimed invariant markup ≥ 0 fails for
rules accepted by `validateRule`. -/
theorem validated_rule_negative_markup :
    ((PricingEngine.validateRule c6FixedRule).valid = true
      ∧ (PricingEngine.calculatePrice 0 [c6FixedRule] "reseller" 1 "USD").markup < 0)
    ∧ ((PricingEngine.validateRule c6TierRule).valid = true
      ∧ (PricingEngine.calculatePrice 10000 [c6TierRule] "reseller" 1 "USD").markup < 0) := by
  decide

theorem ruleErrors_eq_nil (rule : PricingRule)
    (h : (PricingEngine.validateRule rule).valid = true) :
    PricingEngine.ruleErrors rule = [] := by
  unfold PricingEngine.validateRule at h
  simpa [List.isEmpty_iff] using h

theorem valid_markupValue_nonneg (rule : PricingRule)
    (h : (PricingEngine.validateRule rule).valid = true) :
    0 ≤ rule.markupValue := by
  by_contra hneg
  push_neg at hneg
  have hnil := ruleErrors_eq_nil rule h
  unfold PricingEngine.ruleErrors at hnil
  rw [if_pos hneg] at hnil
  simp at hnil

theorem tieredMarkup_nonneg (baseCost : Int) (cfg : TierConfig)
    (quantity : Int) (hbase : 0 ≤ baseCost)
    (hvals : ∀ t ∈ cfg.tiers, 0 ≤ t.markupValue) :
    0 ≤ PricingEngine.calculateTieredMarkup baseCost cfg quantity := by
  unfold PricingEngine.calculateTieredMarkup
  split
  · rename_i tier hfind
    exact Int.fdiv_nonneg
      (mul_nonneg hbase (hvals _ (List.mem_of_find?_eq_some hfind))) (by norm_num)
  · split
    · exact le_refl 0
    · rename_i t rest heq
      refine Int.fdiv_nonneg (mul_nonneg hbase (hvals t ?_)) (by norm_num)
      rw [heq]
      exact List.mem_cons_self _ _

theorem clamp_nonneg (x : Int) (mn mx : Option Int) (hx : 0 ≤ x)
    (hmx : ∀ m, mx = some m → 0 ≤ m) :
    0 ≤ (match mx with
         | some m =>
             if (match mn with
                 | some m2 => if x < m2 then m2 else x
                 | none => x) > m then m
             else (match mn with
                   | some m2 => if x < m2 then m2 else x
                   | none => x)
         | none =>
             match mn with
             | some m2 => if x < m2 then m2 else x
             | none => x) := by
  cases mn with
  | none =>
    cases mx with
    | none => exact hx
    | some m =>
      have := hmx m rfl
      simp only
      split <;> omega
  | some m2 =>
    cases mx with
    | none =>
      simp only
      split <;> omega
    | some m =>
      have := hmx m rfl
      simp only
      split <;> split <;> omega

/-- C6 (amended): for every rule set whose rules are accepted by
`validateRule` and additionally have a non-negative `maxProfit` when one
is present and non-negative tier markup values, and every non-negative
base cost and quantity, the markup returned by `calculatePrice` is ≥ 0.
(The counterexample shows the two added conditions are necessary:
`validateRule` checks neither.) -/
theorem validated_markup_nonneg (baseCost : Int) (rules : List PricingRule)
    (userRole : String) (quantity : Int) (currency : String)
    (hbase : 0 ≤ baseCost) (hq : 0 ≤ quantity)
    (hrules : ∀ r ∈ rules, (PricingEngine.validateRule r).valid = true
      ∧ (∀ m, r.maxProfit = some m → 0 ≤ m)
      ∧ (∀ cfg, r.tierConfig = some cfg → ∀ t ∈ cfg.tiers, 0 ≤ t.markupValue)) :
    0 ≤ (PricingEngine.calculatePrice baseCost rules userRole quantity currency).markup := by
  unfold PricingEngine.calculatePrice
  cases hfind : rules.find? (fun r => r.role == userRole) with
  | none => simp
  | some rule =>
    obtain ⟨hvalid, hmax, htier⟩ := hrules rule (List.mem_of_find?_eq_some hfind)
    have hmv := valid_markupValue_nonneg rule hvalid
    have hm0 : 0 ≤ (match rule.markupType with
        | MarkupType.fixed => rule.markupValue
        | MarkupType.percentage => Int.fdiv (baseCost * rule.markupValue) 10000
        | MarkupType.tiered =>
            match rule.tierConfig with
            | some cfg => PricingEngine.calculateTieredMarkup baseCost cfg quantity
            | none => 0) := by
      cases rule.markupType with
      | fixed => exact hmv
      | percentage => exact Int.fdiv_nonneg (mul_nonneg hbase hmv) (by norm_num)
      | tiered =>
        cases hcfg : rule.tierConfig with
        | none => exact le_refl 0
        | some cfg =>
          exact tieredMarkup_nonneg baseCost cfg quantity hbase (htier cfg hcfg)
    exact clamp_nonneg _ rule.minProfit rule.maxProfit hm0 hmax

/-- Witness for the amended C6 theorem on the concrete scenario rule. -/
theorem validated_markup_nonneg_witness :
    0 ≤ (PricingEngine.calculatePrice 10000 [c5Rule] "wholesale" 1 "USD").markup := by
  refine validated_markup_nonneg 10000 [c5Rule] "wholesale" 1 "USD"
    (by decide) (by decide) ?_
  intro r hr
  rw [List.mem_singleton] at hr
  subst hr
  refine ⟨by decide, ?_, ?_⟩
  · intro m hm
    simp [c5Rule] at hm
  · intro cfg hc
    simp [c5Rule] at hc

/-- C9 (counterexample): with a negative base cost (allowed by the claim,
which only requires `finalPrice ≥ baseCost` and non-negative rule
values), `calculateProfitDistribution` returns a strictly negative
per-role profit: the percentage share `floor(baseCost*mv/10000)` is
negative and is not floor-clamped at 0. -/
theorem profitDistribution_negative_share :
    ((-10000 : Int) ≤ 0)
      ∧ 0 ≤ c9Rule.markupValue
      ∧ c9Rule.minProfit = none ∧ c9Rule.maxProfit = none
      ∧ ∃ s ∈ PricingEngine.calculateProfitDistribution (-10000) 0
          [{ role := "agent", userId := "u1" }] [c9Rule], s.profit < 0 := by
  decide

theorem distRoleProfit_bounds (baseCost : Int) (rule : PricingRule)
    (rem : Int) (hbase : 0 ≤ baseCost) (hrem : 0 < rem)
    (hmv : 0 ≤ rule.markupValue)
    (hmn : ∀ m, rule.minProfit = some m → 0 ≤ m)
    (hmx : ∀ m, rule.maxProfit = some m → 0 ≤ m) :
    0 ≤ PricingEngine.distRoleProfit baseCost rule rem
      ∧ PricingEngine.distRoleProfit baseCost rule rem ≤ rem := by
  have hfd : 0 ≤ Int.fdiv (baseCost * rule.markupValue) 10000 :=
    Int.fdiv_nonneg (mul_nonneg hbase hmv) (by norm_num)
  unfold PricingEngine.distRoleProfit
  cases hmt : rule.markupType <;> cases hmnp : rule.minProfit <;>
    cases hmxp : rule.maxProfit <;> simp only []
  all_goals try have h1 := hmn _ hmnp
  all_goals try have h2 := hmx _ hmxp
  all_goals constructor <;> (repeat' split) <;> omega

theorem distStep_bounds (baseCost : Int) (rules : List PricingRule)
    (hbase : 0 ≤ baseCost)
    (hrules : ∀ r ∈ rules, 0 ≤ r.markupValue
      ∧ (∀ m, r.minProfit = some m → 0 ≤ m)
      ∧ (∀ m, r.maxProfit = some m → 0 ≤ m))
    (st : Int × List ProfitShare) (ru : RoleUser) (hrem : 0 ≤ st.1) :
    0 ≤ (PricingEngine.distStep baseCost rules st ru).1
      ∧ (PricingEngine.distStep baseCost rules st ru).1 ≤ st.1
      ∧ ∃ share, (PricingEngine.distStep baseCost rules st ru).2 = st.2 ++ [share]
          ∧ share.profit = st.1 - (PricingEngine.distStep baseCost rules st ru).1 := by
  simp only [PricingEngine.distStep]
  cases hfind : rules.find? (fun r => r.role == ru.role) with
  | none =>
    simp only []
    exact ⟨hrem, le_refl _, ⟨_, rfl, by simp⟩⟩
  | some rule =>
    obtain ⟨hmv, hmn, hmx⟩ := hrules rule (List.mem_of_find?_eq_some hfind)
    by_cases h0 : st.1 ≤ 0
    · simp only [if_pos h0]
      exact ⟨hrem, le_refl _, ⟨_, rfl, by simp⟩⟩
    · have hb := distRoleProfit_bounds baseCost rule st.1 hbase (by omega) hmv hmn hmx
      simp only [if_neg h0]
      exact ⟨by omega, by omega, ⟨_, rfl, by simp⟩⟩

theorem sumProfits_append (l1 l2 : List ProfitShare) :
    sumProfits (l1 ++ l2) = sumProfits l1 + sumProfits l2 := by
  simp [sumProfits]

theorem distFold_bounds (baseCost : Int) (rules : List PricingRule)
    (hbase : 0 ≤ baseCost)
    (hrules : ∀ r ∈ rules, 0 ≤ r.markupValue
      ∧ (∀ m, r.minProfit = some m → 0 ≤ m)
      ∧ (∀ m, r.maxProfit = some m → 0 ≤ m))
    (hier : List RoleUser) :
    ∀ (rem : Int) (acc : List ProfitShare), 0 ≤ rem →
      0 ≤ (hier.foldl (PricingEngine.distStep baseCost rules) (rem, acc)).1
      ∧ sumProfits ((hier.foldl (PricingEngine.distStep baseCost rules) (rem, acc)).2)
          = sumProfits acc
            + (rem - (hier.foldl (PricingEngine.distStep baseCost rules) (rem, acc)).1)
      ∧ (∀ s ∈ (hier.foldl (PricingEngine.distStep baseCost rules) (rem, acc)).2,
          s ∈ acc ∨ 0 ≤ s.profit) := by
  induction hier with
  | nil =>
    intro rem acc hrem
    refine ⟨hrem, by simp, fun s hs => Or.inl hs⟩
  | cons ru hier ih =>
    intro rem acc hrem
    simp only [List.foldl_cons]
    obtain ⟨h1, h2, share, hshare, hprofit⟩ :=
      distStep_bounds baseCost rules hbase hrules (rem, acc) ru hrem
    dsimp only at h1 h2 hshare hprofit
    obtain ⟨ih1, ih2, ih3⟩ :=
      ih (PricingEngine.distStep baseCost rules (rem, acc) ru).1
        (PricingEngine.distStep baseCost rules (rem, acc) ru).2 h1
    rw [Prod.mk.eta] at ih1 ih2 ih3
    refine ⟨ih1, ?_, ?_⟩
    · rw [ih2, hshare, sumProfits_append]
      have : sumProfits [share] = share.profit := by simp [sumProfits]
      omega
    · intro s hs
      rcases ih3 s hs with h | h
      · rw [hshare] at h
        rcases List.mem_append.mp h with h | h
        · exact Or.inl h
        · right
          rw [List.mem_singleton] at h
          subst h
          omega
      · exact Or.inr h

/-- C9 (amended): for every role hierarchy, every `finalPrice ≥ baseCost`
with `baseCost ≥ 0` (the added hypothesis the counterexample forces),
and every rule set with non-negative markup values, `minProfit` and
`maxProfit`, the per-role profits returned by
`calculateProfitDistribution` are each ≥ 0 and their sum never exceeds
the shared pool `finalPrice − baseCost`. -/
theorem profitDistribution_bounds (baseCost finalPrice : Int)
    (roleHierarchy : List RoleUser) (rules : List PricingRule)
    (hbase : 0 ≤ baseCost) (hfp : baseCost ≤ finalPrice)
    (hrules : ∀ r ∈ rules, 0 ≤ r.markupValue
      ∧ (∀ m, r.minProfit = some m → 0 ≤ m)
      ∧ (∀ m, r.maxProfit = some m → 0 ≤ m)) :
    (∀ s ∈ PricingEngine.calculateProfitDistribution baseCost finalPrice
        roleHierarchy rules, 0 ≤ s.profit)
      ∧ sumProfits (PricingEngine.calculateProfitDistribution baseCost finalPrice
          roleHierarchy rules) ≤ finalPrice - baseCost := by
  obtain ⟨h1, h2, h3⟩ := distFold_bounds baseCost rules hbase hrules
    roleHierarchy.reverse (finalPrice - baseCost) [] (by omega)
  simp only [PricingEngine.calculateProfitDistribution]
  constructor
  · intro s hs
    rw [List.mem_reverse] at hs
    rcases h3 s hs with h | h
    · exact absurd h (List.not_mem_nil s)
    · exact h
  · have hrev : sumProfits ((roleHierarchy.reverse.foldl
        (PricingEngine.distStep baseCost rules) (finalPrice - baseCost, [])).2.reverse)
        = sumProfits ((roleHierarchy.reverse.foldl
          (PricingEngine.distStep baseCost rules) (finalPrice - baseCost, [])).2) := by
      simp [sumProfits, List.sum_reverse]
    rw [hrev, h2]
    have : sumProfits [] = 0 := rfl
    omega

/-- Witness for the amended C9 theorem at a concrete input. -/
theorem profitDistribution_bounds_witness :
    (∀ s ∈ PricingEngine.calculateProfitDistribution 0 100
        [{ role := "agent", userId := "u1" }] [c9Rule], 0 ≤ s.profit)
      ∧ sumProfits (PricingEngine.calculateProfitDistribution 0 100
          [{ role := "agent", userId := "u1" }] [c9Rule]) ≤ 100 - 0 := by
  refine profitDistribution_bounds 0 100 [{ role := "agent", userId := "u1" }]
    [c9Rule] (by decide) (by decide) ?_
  intro r hr
  rw [List.mem_singleton] at hr
  subst hr
  refine ⟨by decide, ?_, ?_⟩ <;> intro m hm <;> simp [c9Rule] at hm

/-- Witness for the C5 theorem on the concrete scenario rule. -/
theorem calculatePrice_percentage_witness :
    (PricingEngine.calculatePrice 10000 [c5Rule] "wholesale" 1 "USD").markup = 1000
      ∧ (PricingEngine.calculatePrice 10000 [c5Rule] "wholesale" 1 "USD").totalAmount = 11000 :=
  ⟨(calculatePrice_percentage 10000 [c5Rule] "wholesale" 1 "USD" c5Rule rfl rfl).2.1,
   (calculatePrice_percentage 10000 [c5Rule] "wholesale" 1 "USD" c5Rule rfl rfl).2.2⟩

theorem jsSet_ne_nil {α : Type} (m : List (String × α)) (k : String) (v : α) :
    jsSet m k v ≠ [] := by
  unfold jsSet
  split
  · rename_i h
    intro hm
    rw [List.map_eq_nil_iff] at hm
    subst hm
    simp at h
  · simp

theorem jsSet_keysEq {α : Type} (m : List (String × α)) (k : String) (v : α) :
    (jsSet m k v).map (fun p => p.1) =
      if m.any (fun p => p.1 == k) then m.map (fun p => p.1)
      else m.map (fun p => p.1) ++ [k] := by
  unfold jsSet
  split <;> rename_i h
  · rw [List.map_map]
    apply List.map_congr_left
    intro p hp
    by_cases hpk : p.1 = k
    · simp [hpk]
    · simp [hpk]
  · rw [List.map_append]
    rfl

theorem jsSet_keys_mono {α : Type} (m : List (String × α)) (k : String) (v : α)
    (n : String) (h : n ∈ m.map (fun p => p.1)) :
    n ∈ (jsSet m k v).map (fun p => p.1) := by
  rw [jsSet_keysEq]
  split
  · exact h
  · exact List.mem_append_left _ h

theorem jsSet_keys_self {α : Type} (m : List (String × α)) (k : String) (v : α) :
    k ∈ (jsSet m k v).map (fun p => p.1) := by
  rw [jsSet_keysEq]
  split
  · rename_i h
    rw [List.any_eq_true] at h
    obtain ⟨p, hp, hpk⟩ := h
    exact List.mem_map.mpr ⟨p, hp, beq_iff_eq.mp hpk⟩
  · exact List.mem_append_right _ (List.mem_singleton.mpr rfl)

theorem validateLoop_errors_nil_iff (rtest : String → String → Bool)
    (input : List (String × JSValue)) (fields : List FieldSchema) :
    ∀ E D, (SchemaValidator.validateLoop rtest input fields E D).1 = [] ↔
      (E = [] ∧ ∀ f ∈ fields, (SchemaValidator.checkField rtest input f).1 = []) := by
  induction fields with
  | nil =>
    intro E D
    simp [SchemaValidator.validateLoop]
  | cons f rest ih =>
    intro E D
    by_cases hf : (SchemaValidator.checkField rtest input f).1 = []
    · simp only [SchemaValidator.validateLoop, hf, if_true, ih,
        List.forall_mem_cons]
      tauto
    · have hne := jsSet_ne_nil E f.name (SchemaValidator.checkField rtest input f).1
      simp only [SchemaValidator.validateLoop, hf, if_false, ih,
        List.forall_mem_cons]
      simp [hne, hf]

theorem validateLoop_keys_mono (rtest : String → String → Bool)
    (input : List (String × JSValue)) (fields : List FieldSchema) :
    ∀ E D (n : String), n ∈ E.map (fun p => p.1) →
      n ∈ (SchemaValidator.validateLoop rtest input fields E D).1.map (fun p => p.1) := by
  induction fields with
  | nil =>
    intro E D n h
    simpa [SchemaValidator.validateLoop] using h
  | cons f rest ih =>
    intro E D n h
    simp only [SchemaValidator.validateLoop]
    apply ih
    split
    · exact h
    · exact jsSet_keys_mono _ _ _ _ h

theorem validateLoop_fail_key (rtest : String → String → Bool)
    (input : List (String × JSValue)) (fields : List FieldSchema) :
    ∀ E D (f : FieldSchema), f ∈ fields →
      (SchemaValidator.checkField rtest input f).1 ≠ [] →
      f.name ∈ (SchemaValidator.validateLoop rtest input fields E D).1.map
        (fun p => p.1) := by
  induction fields with
  | nil =>
    intro E D f hf
    exact absurd hf (List.not_mem_nil f)
  | cons g rest ih =>
    intro E D f hf hfail
    simp only [SchemaValidator.validateLoop]
    rcases List.mem_cons.mp hf with rfl | hmem
    · rw [if_neg hfail]
      exact validateLoop_keys_mono rtest input rest _ _ _
        (jsSet_keys_self _ _ _)
    · exact ih _ _ f hmem hfail

/-- C8: `SchemaValidator.validate` returns `valid = true` together with a
normalized data object exactly when no declared field produces an error;
when a field fails, the errors map carries an entry keyed by that field
(errors are collected across all fields, not fail-fast).  On the example
IMEI schema, the input `imei = "12345"` fails with an error keyed by
`imei`, and `imei = "123456789012345"` succeeds with data. -/
theorem validate_spec (rtest : String → String → Bool)
    (schema : ServiceInputSchema) (input : List (String × JSValue)) :
    (((SchemaValidator.validate rtest schema input).valid = true
        ∧ (SchemaValidator.validate rtest schema input).data.isSome)
      ↔ (∀ f ∈ schema.fields, (SchemaValidator.checkField rtest input f).1 = []))
    ∧ (∀ f ∈ schema.fields, (SchemaValidator.checkField rtest input f).1 ≠ [] →
        f.name ∈ errKeys (SchemaValidator.validate rtest schema input))
    ∧ (SchemaValidator.validate imeiRegexTest exampleIMEISchema
        [("imei", JSValue.str "12345")]).valid = false
    ∧ "imei" ∈ errKeys (SchemaValidator.validate imeiRegexTest exampleIMEISchema
        [("imei", JSValue.str "12345")])
    ∧ (SchemaValidator.validate imeiRegexTest exampleIMEISchema
        [("imei", JSValue.str "123456789012345")]).valid = true
    ∧ (SchemaValidator.validate imeiRegexTest exampleIMEISchema
        [("imei", JSValue.str "123456789012345")]).data.isSome := by
  refine ⟨?_, ?_, by decide, by decide, by decide, by decide⟩
  · constructor
    · rintro ⟨hv, -⟩
      simp only [SchemaValidator.validate, List.isEmpty_iff] at hv
      exact ((validateLoop_errors_nil_iff rtest input schema.fields [] []).mp hv).2
    · intro hall
      have hnil : (SchemaValidator.validateLoop rtest input schema.fields [] []).1 = [] :=
        (validateLoop_errors_nil_iff rtest input schema.fields [] []).mpr ⟨rfl, hall⟩
      constructor
      · simp [SchemaValidator.validate, hnil]
      · simp [SchemaValidator.validate, hnil]
  · intro f hf hfail
    have hne : (SchemaValidator.validateLoop rtest input schema.fields [] []).1 ≠ [] := by
      intro hnil
      exact hfail
        (((validateLoop_errors_nil_iff rtest input schema.fields [] []).mp hnil).2 f hf)
    have hkey := validateLoop_fail_key rtest input schema.fields [] [] f hf hfail
    simp only [SchemaValidator.validate, errKeys, List.isEmpty_iff]
    rw [if_neg hne]
    exact hkey

/-- Witness for the C8 theorem: the failing `imei` field of the scenario
produces an entry keyed by `imei`. -/
theorem validate_spec_witness :
    "imei" ∈ errKeys (SchemaValidator.validate imeiRegexTest exampleIMEISchema
      [("imei", JSValue.str "12345")]) :=
  (validate_spec imeiRegexTest exampleIMEISchema
    [("imei", JSValue.str "12345")]).2.1 imeiField (by decide) (by decide)

/-- Witness for the C3 theorem on a concrete ledger holding one credit of
100, with an order payment of 50. -/
theorem completeOrderPayment_net_witness :
    (WalletManager.calculateBalance ([c3Credit] ++ [c3Lock, c3Unlock, c3Debit])).available
        = (WalletManager.calculateBalance [c3Credit]).available - 50
      ∧ (WalletManager.calculateBalance ([c3Credit] ++ [c3Lock, c3Unlock, c3Debit])).locked
        = (WalletManager.calculateBalance [c3Credit]).locked :=
  completeOrderPayment_net [c3Credit] 50 "w1" "t1" "o1" "lt1" "u1" "n1" "n2"
    (by decide) (by decide) c3Lock c3Unlock c3Debit rfl rfl

end Ylstack
